import Mathlib

/-!
Verification of the chandas (Sanskrit prosody) analysis engine.

This file gives a shallow embedding of the core pipeline found in
`rag__model/utils/chandas_patterns.py` (text normalization, syllable
segmentation, light/heavy classification, meter matching with fallback
ladder) and of the explanation generator
`_generate_identification_process` in
`rag__model/controllers/chandas_controller.py`, and proves properties of
these definitions.

Conventions: Python strings are modeled as `String` / `List Char`;
Python float confidence literals are modeled exactly as rationals
(no float arithmetic ever happens in the source, only literal
assignment and comparison, so this is observation-equivalent); the
`while` scanning loop of `split_into_syllables` is modeled with an
explicit fuel argument equal to the input length, which is sufficient
because every iteration consumes at least one character (proved below).
-/

/-- Characters matched by Python regex `\s` on `str` inputs (ASCII
whitespace, the four information separators, and Unicode whitespace). -/
def isSpaceChar (c : Char) : Bool :=
  (0x09 ≤ c.toNat && c.toNat ≤ 0x0d) || c.toNat = 0x20 ||
  (0x1c ≤ c.toNat && c.toNat ≤ 0x1f) || c.toNat = 0x85 || c.toNat = 0xa0 ||
  c.toNat = 0x1680 || (0x2000 ≤ c.toNat && c.toNat ≤ 0x200a) ||
  c.toNat = 0x2028 || c.toNat = 0x2029 || c.toNat = 0x202f ||
  c.toNat = 0x205f || c.toNat = 0x3000

/-- The character class of the normalization regex `[।॥\n\r\s]+` in
`split_into_syllables`: danda, double danda, newline, carriage return,
and whitespace. -/
def isSpecialChar (c : Char) : Bool :=
  c = '।' || c = '॥' || c = '\n' || c = '\r' || isSpaceChar c

/-- `re.sub(r'[।॥\n\r\s]+', '', text)`: removing every character of the
class is the same as filtering them out one by one. -/
def normalize_text (l : List Char) : List Char :=
  l.filter (fun c => !(isSpecialChar c))

/-- The dependent-sign string `'ािीुूृॄेैोौंः'` used by the dependent
vowel loop of `split_into_syllables` (eleven vowel signs plus anusvara
and visarga). -/
def dependent_signs : List Char :=
  ['ा', 'ि', 'ी', 'ु', 'ू', 'ृ', 'ॄ', 'े', 'ै', 'ो', 'ौ', 'ं', 'ः']

/-- Membership in the dependent-sign string. -/
def isDep (c : Char) : Bool := dependent_signs.contains c

/-- The exclusion string `'ािीुूृॄेैोौंः।॥'` tested inside the
halant/virama loop of `split_into_syllables`. -/
def isDepOrDanda (c : Char) : Bool := isDep c || c = '।' || c = '॥'

/-- The halant/virama loop of `split_into_syllables`:
`while text[i] == '्': consume it; if the next character exists and is
not in the exclusion string, consume it too`.  Returns the consumed
characters and the remaining input. -/
def viramaLoop : List Char → List Char × List Char
  | [] => ([], [])
  | [c] => if c = '्' then ([c], []) else ([], [c])
  | c :: d :: rest =>
    if c = '्' then
      if isDepOrDanda d then
        ([c], d :: rest)
      else
        let p := viramaLoop rest
        (c :: d :: p.1, p.2)
    else
      ([], c :: d :: rest)

/-- One iteration of the scanning `while` loop of
`split_into_syllables`: take the current character, then greedily
dependent signs, then the virama loop.  Returns the built syllable and
the remaining input. -/
def splitStep : List Char → List Char × List Char
  | [] => ([], [])
  | c :: rest =>
    let dep := rest.takeWhile isDep
    let rest1 := rest.dropWhile isDep
    let vp := viramaLoop rest1
    (c :: (dep ++ vp.1), vp.2)

/-- The scanning `while i < len(text)` loop of `split_into_syllables`,
with explicit fuel (the `if syllable:` guard of the source is kept even
though the syllable always starts with one character). -/
def splitLoopFuel : Nat → List Char → List (List Char)
  | 0, _ => []
  | _ + 1, [] => []
  | fuel + 1, c :: rest =>
    let p := splitStep (c :: rest)
    if p.1.isEmpty then splitLoopFuel fuel p.2 else p.1 :: splitLoopFuel fuel p.2

/-- `split_into_syllables(text)` from `chandas_patterns.py`. -/
def split_into_syllables (text : String) : List String :=
  let t := normalize_text text.data
  (splitLoopFuel t.length t).map (fun l => String.mk l)

/-- The `long_vowels` list of `classify_syllable`. -/
def long_vowels : List Char :=
  ['आ', 'ई', 'ऊ', 'ए', 'ऐ', 'ओ', 'औ', 'ा', 'ी', 'ू', 'े', 'ै', 'ो', 'ौ']

/-- `classify_syllable(syllable, is_line_end)` from
`chandas_patterns.py`: returns `"G"` (Guru / Heavy) or `"L"`
(Laghu / Light). -/
def classify_syllable (syllable : String) (is_line_end : Bool) : String :=
  if is_line_end then "G"
  else if long_vowels.any (fun v => syllable.data.contains v) then "G"
  else if syllable.data.contains '्' then "G"
  else if syllable.data.contains 'ं' || syllable.data.contains 'ः' then "G"
  else "L"

/-- One entry of the `syllable_breakdown` list built by
`detect_chandas`. -/
structure SyllableEntry where
  syllable : String
  type : String
  position : Nat
  deriving DecidableEq

/-- One entry of the `CHANDAS_PATTERNS` table. -/
structure MeterTemplate where
  name : String
  syllables_per_line : Nat
  total_syllables : Nat
  pattern : Option String
  description : String
  deriving DecidableEq

/-- The `CHANDAS_PATTERNS` table of `chandas_patterns.py`; a Python
dict preserves insertion order, so it is an ordered list. -/
def CHANDAS_PATTERNS : List MeterTemplate :=
  [ { name := "Anushtup", syllables_per_line := 8, total_syllables := 32,
      pattern := none,
      description := "Most common meter in Sanskrit poetry, 8 syllables per quarter" },
    { name := "Indravajra", syllables_per_line := 11, total_syllables := 44,
      pattern := some "GGLGGLLGLLG",
      description := "11 syllables per quarter with specific pattern" },
    { name := "Upendravajra", syllables_per_line := 11, total_syllables := 44,
      pattern := some "LGLGGLLGLLG",
      description := "11 syllables per quarter, variant of Indravajra" },
    { name := "Vasantatilaka", syllables_per_line := 14, total_syllables := 56,
      pattern := some "GGLGLLGLGLGLLG",
      description := "14 syllables per quarter, spring-like rhythm" },
    { name := "Malini", syllables_per_line := 15, total_syllables := 60,
      pattern := some "LLGLLGGLGGLGLLG",
      description := "15 syllables per quarter" },
    { name := "Shardula-vikridita", syllables_per_line := 19, total_syllables := 76,
      pattern := some "GGGGLGGLLGLLLGLLG",
      description := "19 syllables per quarter, complex meter" } ]

/-- Python substring test `small in big` on strings. -/
def isSubOf (needle : List Char) : List Char → Bool
  | [] => needle.isEmpty
  | c :: rest => needle.isPrefixOf (c :: rest) || isSubOf needle rest

/-- Python `str.lower()` restricted to what the source applies it to
(the one-character classification strings "G"/"L"). -/
def str_toLower (s : String) : String := String.mk (s.data.map Char.toLower)

/-- The result dictionary returned by `detect_chandas`. -/
structure DetectResult where
  chandas_name : String
  syllable_breakdown : List SyllableEntry
  laghu_guru_pattern : String
  explanation : String
  confidence : ℚ
  deriving DecidableEq

/-- The classification loop of `detect_chandas`
(`for i, syl in enumerate(syllables)` with
`is_end = (i == len(syllables) - 1)`), building both `pattern_str` and
`syllable_breakdown`; `n` is the total syllable count, `i` the current
index. -/
def classifyFold (n : Nat) : Nat → List String → String × List SyllableEntry
  | _, [] => ("", [])
  | i, syl :: rest =>
    let classification := classify_syllable syl (i == n - 1)
    let p := classifyFold n (i + 1) rest
    (classification ++ p.1,
     { syllable := syl, type := str_toLower classification, position := i + 1 } :: p.2)

/-- The `for chandas_name, info in CHANDAS_PATTERNS.items()` matching
loop of `detect_chandas`: on the first template with equal syllable
count, a flexible template matches at once with confidence 0.85; a
fixed-pattern template matches with confidence 0.95 when the quarter
pattern is a substring of the input pattern or vice versa; otherwise the
scan continues with the next template. -/
def matchLoop (total : Nat) (pattern_str : String) : List MeterTemplate → Option (String × ℚ)
  | [] => none
  | t :: rest =>
    if t.total_syllables == total then
      match t.pattern with
      | none => some (t.name, 85/100)
      | some p =>
        if isSubOf p.data pattern_str.data || isSubOf pattern_str.data p.data then
          some (t.name, 95/100)
        else matchLoop total pattern_str rest
    else matchLoop total pattern_str rest

/-- The `if best_match is None` fallback ladder of `detect_chandas`;
returns (name, confidence, explanation). -/
def fallback (total_syllables : Nat) : String × ℚ × String :=
  if total_syllables == 8 then
    ("Anushtup (single quarter detected)", (75/100,
     "8 syllables detected - appears to be one quarter of Anushtup meter"))
  else if total_syllables % 8 == 0 then
    ("Anushtup (" ++ toString (total_syllables / 8) ++ "/4 quarters)", (70/100,
     toString total_syllables ++ " syllables (" ++ toString (total_syllables / 8) ++
       " quarters of 8) - Anushtup pattern"))
  else
    let syllables_per_line := if total_syllables % 4 == 0 then total_syllables / 4 else 0
    if syllables_per_line > 0 then
      ("Unknown (" ++ toString syllables_per_line ++ " syl/quarter)", (50/100,
       toString total_syllables ++ " total syllables, " ++ toString syllables_per_line ++
         " per quarter"))
    else
      ("Unknown", (30/100,
       "Detected " ++ toString total_syllables ++ " syllables - no standard pattern match"))

/-- `detect_chandas(text)` from `chandas_patterns.py`. -/
def detect_chandas (text : String) : DetectResult :=
  let syllables := split_into_syllables text
  let total_syllables := syllables.length
  let pb := classifyFold total_syllables 0 syllables
  match matchLoop total_syllables pb.1 CHANDAS_PATTERNS with
  | some nc =>
    { chandas_name := nc.1,
      syllable_breakdown := pb.2,
      laghu_guru_pattern := pb.1,
      explanation :=
        ((CHANDAS_PATTERNS.find? (fun t => t.name == nc.1)).map
          (fun t => t.description)).getD
          ("Detected " ++ toString total_syllables ++ " total syllables"),
      confidence := nc.2 }
  | none =>
    let f := fallback total_syllables
    { chandas_name := f.1,
      syllable_breakdown := pb.2,
      laghu_guru_pattern := pb.1,
      explanation := f.2.2,
      confidence := f.2.1 }

/-- Modelled from the spec: `detect_chandas` in the source returns no
`detected` field (it only appears in the surrounding service layer);
the spec (section 4.5) defines the result's `detected` boolean as true
unless the reported meter name is "Unknown". -/
def detected (r : DetectResult) : Bool := r.chandas_name != "Unknown"

/-- One record of the `identification_process` list built by
`_generate_identification_process` in `chandas_controller.py`. -/
structure IdentificationStep where
  step_number : Nat
  step_name : String
  description : String
  result : String
  deriving DecidableEq

/-- Rendering of a confidence value with two decimal places, modeling
the Python f-string directive `{confidence:.2f}` for the nonnegative
confidence values the source produces. -/
def fmt2 (q : ℚ) : String :=
  let m : Int := Int.floor (q * 100 + 1/2)
  let frac := (m % 100).natAbs
  toString (m / 100) ++ "." ++ (if frac < 10 then "0" else "") ++ toString frac

/-- The `confidence_reason` bucket chain of step 5 of
`_generate_identification_process`. -/
def confidence_reason (confidence : ℚ) : String :=
  if 9/10 ≤ confidence then "Exact match with standard pattern and syllable count"
  else if 7/10 ≤ confidence then "Strong match with minor variations acceptable in classical texts"
  else if 5/10 ≤ confidence then "Partial match - incomplete verse or variant form detected"
  else "Low confidence - unusual pattern or insufficient data"

/-- `_generate_identification_process(shloka, result)` from
`chandas_controller.py`: the five-step explanation trace. -/
def generate_identification_process (shloka : String) (result : DetectResult) :
    List IdentificationStep :=
  let cleaned_text := String.mk (normalize_text shloka.data)
  let step1 : IdentificationStep :=
    { step_number := 1, step_name := "Text Preprocessing",
      description := "Remove punctuation marks (।॥), whitespace, and newlines to get clean Devanagari text",
      result := "Cleaned text: " ++ String.mk (cleaned_text.data.take 50) ++
        (if cleaned_text.data.length > 50 then "..." else "") }
  let syllable_count := result.syllable_breakdown.length
  let sample_text :=
    String.intercalate ", " ((result.syllable_breakdown.take 5).map (fun s => s.syllable)) ++
      (if result.syllable_breakdown.length > 5 then "..." else "")
  let step2 : IdentificationStep :=
    { step_number := 2, step_name := "Syllable Segmentation (Akshara Vibhajana)",
      description := "Split text into syllables using Devanagari rules: consonant + vowel + optional dependent marks (ा, ि, ी, ु, ू, े, ै, ो, ौ, ं, ः) + optional halant (्) + conjunct consonants",
      result := "Total syllables: " ++ toString syllable_count ++ ". Examples: " ++ sample_text }
  let pattern := result.laghu_guru_pattern
  let step3 : IdentificationStep :=
    { step_number := 3, step_name := "Laghu-Guru Classification (Mātrā Analysis)",
      description := "Classify each syllable based on prosodic weight:\n• Laghu (L): Short vowel (अ, इ, उ, ऋ) without conjunct\n• Guru (G): Long vowel (आ, ई, ऊ, ए, ऐ, ओ, औ) OR short vowel + conjunct OR anusvara (ं) OR visarga (ः) OR end of line",
      result := "Pattern: " ++ pattern ++ "\nLaghu: " ++ toString (pattern.data.count 'L') ++
        ", Guru: " ++ toString (pattern.data.count 'G') }
  let match_explanation :=
    if syllable_count == 32 then
      "32 syllables (8 per quarter × 4 quarters) matches Anushtup meter structure"
    else if syllable_count == 44 then
      "44 syllables (11 per quarter × 4 quarters). Pattern " ++ pattern ++
        " matched against Indravajra/Upendravajra templates"
    else if syllable_count == 56 then
      "56 syllables (14 per quarter × 4 quarters) matches Vasantatilaka structure"
    else if syllable_count % 8 == 0 then
      toString syllable_count ++ " syllables = " ++ toString (syllable_count / 8) ++
        " quarters of 8. Likely Anushtup variant"
    else
      toString syllable_count ++
        " syllables analyzed. Pattern compared against database of known chandas signatures"
  let step4 : IdentificationStep :=
    { step_number := 4, step_name := "Pattern Matching (Chandas Parichaya)",
      description := "Compare syllable count and L-G pattern against database of known chandas:\n• Anushtup: 32 syllables, flexible pattern\n• Indravajra: 44 syllables, GGLGGLLGLLG pattern\n• Upendravajra: 44 syllables, LGLGGLLGLLG pattern\n• Vasantatilaka: 56 syllables\n• Malini: 60 syllables\n• Shardula-vikridita: 76 syllables",
      result := "Matched: " ++ result.chandas_name ++ "\n" ++ match_explanation }
  let step5 : IdentificationStep :=
    { step_number := 5, step_name := "Confidence Score Calculation",
      description := "Calculate confidence based on:\n• Pattern match accuracy (exact vs partial)\n• Syllable count alignment with known meters\n• Consistency of L-G pattern across quarters\n• Presence of standard chandas markers",
      result := "Confidence: " ++ fmt2 result.confidence ++ "\nReason: " ++
        confidence_reason result.confidence }
  [step1, step2, step3, step4, step5]

/-- A Devanagari quarter scanning exactly as the Indravajra template
"GGLGGLLGLLG": `का` is a Guru syllable (long vowel sign), `क` a Laghu
one. -/
def indravajra_quarter : String :=
  "का" ++ "का" ++ "क" ++ "का" ++ "का" ++ "क" ++ "क" ++ "का" ++ "क" ++ "क" ++ "का"

/-- Four Indravajra quarters: a 44-syllable verse whose weight pattern
is "GGLGGLLGLLG" repeated four times. -/
def indravajra_exemplar : String :=
  indravajra_quarter ++ indravajra_quarter ++ indravajra_quarter ++ indravajra_quarter

/-- A 44-syllable verse whose weight pattern starts with one Indravajra
quarter "GGLGGLLGLLG" and then continues with 32 Laghu syllables (the
final syllable is classified Guru by the line-end rule). -/
def quarter_then_laghu_text : String :=
  indravajra_quarter ++ String.mk (List.replicate 33 'क')

/-- Acceptance condition for a single catalog template, as the matching
loop of `detect_chandas` actually implements it: the template's total
syllable count equals the input count, and (for a fixed-pattern
template) the single quarter pattern is a substring of the input weight
pattern or the input weight pattern is a substring of the quarter
pattern. -/
def accepts_template (total : Nat) (pattern_str : String) (t : MeterTemplate) : Bool :=
  t.total_syllables == total &&
    match t.pattern with
    | none => true
    | some p => isSubOf p.data pattern_str.data || isSubOf pattern_str.data p.data

/-- The virama loop returns exactly the characters it consumed: consumed
part plus remainder reassemble the input. -/
theorem viramaLoop_append : ∀ l : List Char, (viramaLoop l).1 ++ (viramaLoop l).2 = l
  | [] => rfl
  | [c] => by
    by_cases h : c = '्' <;> simp [viramaLoop, h]
  | c :: d :: rest => by
    by_cases h : c = '्'
    · by_cases h2 : isDepOrDanda d
      · simp [viramaLoop, h, h2]
      · have ih := viramaLoop_append rest
        simp [viramaLoop, h, h2, ih]
    · simp [viramaLoop, h]

/-- The virama loop never grows the remainder. -/
theorem viramaLoop_snd_le (l : List Char) : (viramaLoop l).2.length ≤ l.length := by
  have h := congrArg List.length (viramaLoop_append l)
  rw [List.length_append] at h
  omega

/-- No character consumed by the virama loop is a dependent sign: the
loop only consumes the virama itself and characters outside the
exclusion string. -/
theorem viramaLoop_fst_not_dep : ∀ l : List Char, ∀ x ∈ (viramaLoop l).1, isDep x = false
  | [] => by intro x hx; simp [viramaLoop] at hx
  | [c] => by
    intro x hx
    by_cases h : c = '्' <;> simp [viramaLoop, h] at hx
    subst hx; subst h; decide
  | c :: d :: rest => by
    intro x hx
    by_cases h : c = '्'
    · by_cases h2 : isDepOrDanda d
      · simp [viramaLoop, h, h2] at hx
        subst hx; subst h; decide
      · simp [viramaLoop, h, h2] at hx
        rcases hx with hx | hx | hx
        · subst hx; subst h; decide
        · subst hx
          simp [isDepOrDanda] at h2
          exact h2.1.1
        · exact viramaLoop_fst_not_dep rest x hx
    · simp [viramaLoop, h] at hx

/-- If the input does not start with a virama, the virama loop consumes
nothing. -/
theorem viramaLoop_no_virama : ∀ l : List Char, (∀ x ∈ l, x ≠ '्') → viramaLoop l = ([], l)
  | [], _ => rfl
  | [c], h => by simp [viramaLoop, h c (by simp)]
  | c :: d :: rest, h => by simp [viramaLoop, h c (by simp)]

/-- One scanning iteration returns exactly the characters it consumed. -/
theorem splitStep_append : ∀ l : List Char, (splitStep l).1 ++ (splitStep l).2 = l
  | [] => rfl
  | c :: rest => by
    have h1 := viramaLoop_append (rest.dropWhile isDep)
    have h2 := List.takeWhile_append_dropWhile isDep rest
    simp only [splitStep, List.cons_append, List.append_assoc, h1]
    rw [h2]

/-- One scanning iteration on a nonempty input emits a nonempty
syllable. -/
theorem splitStep_fst_ne (l : List Char) (h : l ≠ []) : (splitStep l).1 ≠ [] := by
  cases l with
  | nil => exact absurd rfl h
  | cons c rest => simp [splitStep]

/-- One scanning iteration on a nonempty input consumes at least one
character. -/
theorem splitStep_snd_lt (l : List Char) (h : l ≠ []) : (splitStep l).2.length < l.length := by
  have ha := congrArg List.length (splitStep_append l)
  rw [List.length_append] at ha
  have hne := splitStep_fst_ne l h
  have : 0 < (splitStep l).1.length := List.length_pos.mpr hne
  omega

/-- Unfolding equation of the scanning loop on a nonempty input (the
dead `if syllable:` guard always takes the nonempty branch). -/
theorem splitLoopFuel_cons (fuel : Nat) (c : Char) (rest : List Char) :
    splitLoopFuel (fuel + 1) (c :: rest) =
      (splitStep (c :: rest)).1 :: splitLoopFuel fuel (splitStep (c :: rest)).2 := rfl

/-- The scanning loop is insensitive to the exact fuel as long as the
fuel covers the input length. -/
theorem splitLoopFuel_congr : ∀ (f1 f2 : Nat) (l : List Char),
    l.length ≤ f1 → l.length ≤ f2 → splitLoopFuel f1 l = splitLoopFuel f2 l
  | 0, f2, l, h1, _ => by
    have : l = [] := List.length_eq_zero.mp (Nat.le_zero.mp h1)
    subst this
    cases f2 <;> rfl
  | f1 + 1, f2, [], _, _ => by cases f2 <;> rfl
  | f1 + 1, f2, c :: rest, h1, h2 => by
    cases f2 with
    | zero => simp at h2
    | succ f2x =>
      rw [splitLoopFuel_cons, splitLoopFuel_cons]
      have hlt := splitStep_snd_lt (c :: rest) (by simp)
      have := splitLoopFuel_congr f1 f2x (splitStep (c :: rest)).2
        (by simp at h1 hlt ⊢; omega) (by simp at h2 hlt ⊢; omega)
      rw [this]

/-- Concatenating the syllables emitted by the scanning loop
reconstructs the input exactly. -/
theorem splitLoopFuel_join : ∀ (fuel : Nat) (l : List Char),
    l.length ≤ fuel → (splitLoopFuel fuel l).flatten = l
  | 0, l, h => by
    have : l = [] := List.length_eq_zero.mp (Nat.le_zero.mp h)
    subst this; rfl
  | fuel + 1, [], _ => rfl
  | fuel + 1, c :: rest, h => by
    rw [splitLoopFuel_cons, List.flatten_cons]
    have hlt := splitStep_snd_lt (c :: rest) (by simp)
    have ih := splitLoopFuel_join fuel (splitStep (c :: rest)).2 (by simp at h hlt ⊢; omega)
    rw [ih, splitStep_append]

/-- The classification string of a syllable is always one character
("G" or "L"). -/
theorem classify_syllable_length (s : String) (b : Bool) :
    (classify_syllable s b).length = 1 := by
  unfold classify_syllable
  repeat' split
  all_goals rfl

/-- The classification loop: the pattern string grows by one character
per syllable and the breakdown positions enumerate the indices shifted
by one. -/
theorem classifyFold_spec : ∀ (syls : List String) (n i : Nat),
    (classifyFold n i syls).1.length = syls.length ∧
    (classifyFold n i syls).2.map (fun e => e.position) = List.range' (i + 1) syls.length
  | [], _, _ => ⟨rfl, rfl⟩
  | syl :: rest, n, i => by
    have ih := classifyFold_spec rest n (i + 1)
    constructor
    · show (classify_syllable syl (i == n - 1) ++ (classifyFold n (i + 1) rest).1).length =
        (syl :: rest).length
      rw [String.length_append, classify_syllable_length, ih.1]
      simp [Nat.add_comm]
    · show (i + 1) :: (classifyFold n (i + 1) rest).2.map (fun e => e.position) =
        List.range' (i + 1) (rest.length + 1)
      rw [ih.2, List.range'_succ]

/-- The pattern string and the syllable breakdown of a detection result
both come unchanged from the classification loop, whichever way the
matching went. -/
theorem detect_chandas_fields (s : String) :
    (detect_chandas s).laghu_guru_pattern =
      (classifyFold (split_into_syllables s).length 0 (split_into_syllables s)).1 ∧
    (detect_chandas s).syllable_breakdown =
      (classifyFold (split_into_syllables s).length 0 (split_into_syllables s)).2 := by
  unfold detect_chandas
  dsimp only
  cases matchLoop (split_into_syllables s).length
      (classifyFold (split_into_syllables s).length 0 (split_into_syllables s)).1
      CHANDAS_PATTERNS <;> exact ⟨rfl, rfl⟩

/-- The matching loop is the first-accepted-template search: it returns
the first catalog entry accepted by `accepts_template`, with confidence
0.85 for a flexible template and 0.95 for a fixed-pattern one. -/
theorem matchLoop_eq_find : ∀ (total : Nat) (pattern_str : String) (l : List MeterTemplate),
    matchLoop total pattern_str l =
      (l.find? (accepts_template total pattern_str)).map
        (fun t => (t.name, if t.pattern = none then (85/100 : ℚ) else 95/100))
  | _, _, [] => rfl
  | total, pattern_str, t :: rest => by
    have ih := matchLoop_eq_find total pattern_str rest
    by_cases hc : (t.total_syllables == total) = true
    · cases hp : t.pattern with
      | none =>
        have ha : accepts_template total pattern_str t = true := by
          simp [accepts_template, hc, hp]
        simp [matchLoop, hc, hp, List.find?, ha]
      | some p =>
        by_cases hs : (isSubOf p.data pattern_str.data || isSubOf pattern_str.data p.data) = true
        · have ha : accepts_template total pattern_str t = true := by
            simp [accepts_template, hc, hp]
            simpa using hs
          simp [matchLoop, hc, hp, hs, List.find?, ha]
        · have ha : accepts_template total pattern_str t = false := by
            simp only [accepts_template, hp, hc, Bool.true_and]
            simpa using hs
          simp [matchLoop, hc, hp, hs, List.find?, ha, ih]
    · have ha : accepts_template total pattern_str t = false := by
        simp only [accepts_template]
        simp at hc
        simp [hc]
      simp [matchLoop, hc, List.find?, ha, ih]

/-- Folding string concatenation over character-list pieces is
concatenation of the pieces. -/
theorem foldl_append_mk : ∀ (L : List (List Char)) (acc : List Char),
    List.foldl (fun a b => a ++ b) (String.mk acc) (L.map String.mk) =
      String.mk (acc ++ L.flatten)
  | [], acc => by simp
  | b :: L, acc => by
    have ih := foldl_append_mk L (acc ++ b)
    simp only [List.map_cons, List.foldl_cons, List.flatten_cons]
    have hmk : String.mk acc ++ String.mk b = String.mk (acc ++ b) := rfl
    rw [hmk, ih, List.append_assoc]

/-- Joining the string forms of character-list pieces is the string of
their concatenation. -/
theorem join_map_mk (L : List (List Char)) :
    String.join (L.map String.mk) = String.mk L.flatten := by
  have h := foldl_append_mk L []
  simpa [String.join] using h

/-- If no character of the input is a virama, one scanning iteration on
input whose tail starts with a non-dependent character takes exactly
one character. -/
theorem splitStep_plain (c : Char) (rest : List Char)
    (hrest : ∀ x ∈ rest, isDep x = false ∧ x ≠ '्') :
    splitStep (c :: rest) = ([c], rest) := by
  have htw : rest.takeWhile isDep = [] := by
    cases rest with
    | nil => rfl
    | cons d tl => simp [List.takeWhile_cons, (hrest d (by simp)).1]
  have hdw : rest.dropWhile isDep = rest := by
    cases rest with
    | nil => rfl
    | cons d tl => simp [List.dropWhile_cons, (hrest d (by simp)).1]
  have hv : viramaLoop rest = ([], rest) :=
    viramaLoop_no_virama rest (fun x hx => (hrest x hx).2)
  simp [splitStep, htw, hdw, hv]

/-- On input containing no dependent sign and no virama, the scanning
loop emits one single-character syllable per input character. -/
theorem splitLoopFuel_plain : ∀ (fuel : Nat) (l : List Char), l.length ≤ fuel →
    (∀ c ∈ l, isDep c = false ∧ c ≠ '्') →
    splitLoopFuel fuel l = l.map (fun c => [c])
  | 0, l, h, _ => by
    have : l = [] := List.length_eq_zero.mp (Nat.le_zero.mp h)
    subst this; rfl
  | fuel + 1, [], _, _ => rfl
  | fuel + 1, c :: rest, h, hplain => by
    have hstep := splitStep_plain c rest (fun x hx => hplain x (by simp [hx]))
    rw [splitLoopFuel_cons, hstep]
    have ih := splitLoopFuel_plain fuel rest (by simpa using h)
      (fun x hx => hplain x (by simp [hx]))
    simp [ih]

/-- C1: the claim states that `identify("")` returns meter name
"Unknown", confidence 0.30, detected false and an empty breakdown.  The
code disagrees: on the empty input the syllable count is 0, no catalog
entry has total 0, and the fallback ladder tests `0 % 8 == 0` without
requiring a positive count, so `detect_chandas("")` returns
"Anushtup (0/4 quarters)" with confidence 0.70 (and the spec-modelled
`detected` flag is true since the name is not "Unknown").  Only the
empty breakdown and empty pattern agree with the claim. -/
theorem detect_chandas_empty_eval :
    (detect_chandas "").chandas_name = "Anushtup (0/4 quarters)" ∧
    (detect_chandas "").confidence = 70/100 ∧
    (detect_chandas "").syllable_breakdown = [] ∧
    (detect_chandas "").laghu_guru_pattern = "" ∧
    (detect_chandas "").chandas_name ≠ "Unknown" ∧
    detected (detect_chandas "") = true ∧
    (detect_chandas "").confidence ≠ 30/100 :=
  ⟨by decide, rfl, by decide, by decide, by decide, by decide, by
    have h : (detect_chandas "").confidence = 70/100 := rfl
    rw [h]; norm_num⟩

/-- C2 (counterexample): the claim states that characters which are not
Devanagari vowels, consonants, dependent signs, anusvara or visarga are
skipped and contribute no syllable, and that input with no Devanagari
yields an empty syllable sequence.  The code only removes the
danda/whitespace class during normalization and starts a syllable at
any other character: the pure-Latin input "ab" yields the two
syllables "a" and "b", not the empty sequence. -/
theorem split_nonDevanagari_not_skipped :
    split_into_syllables "ab" = ["a", "b"] ∧ split_into_syllables "ab" ≠ ([] : List String) :=
  ⟨by decide, by decide⟩

/-- C2 (amended): only characters of the normalization class (danda
marks, newlines, whitespace) are removed; every remaining character,
Devanagari or not, begins or joins a syllable.  In particular, on input
with no dependent sign and no virama the segmenter emits one
single-character syllable per character, so non-Devanagari input yields
one syllable per character rather than an empty sequence. -/
theorem split_plain_characters_singleton : ∀ s : String,
    (∀ c ∈ s.data, isSpecialChar c = false ∧ isDep c = false ∧ c ≠ '्') →
    split_into_syllables s = s.data.map (fun c => String.mk [c]) := by
  intro s h
  unfold split_into_syllables
  dsimp only
  have hn : normalize_text s.data = s.data := by
    unfold normalize_text
    apply List.filter_eq_self.mpr
    intro a ha
    simp [(h a ha).1]
  rw [hn, splitLoopFuel_plain s.data.length s.data le_rfl
    (fun c hc => ⟨(h c hc).2.1, (h c hc).2.2⟩), List.map_map]
  rfl

/-- Witness for the amended C2 theorem at the concrete input "ab". -/
theorem split_plain_characters_singleton_witness :
    (∀ c ∈ ("ab" : String).data, isSpecialChar c = false ∧ isDep c = false ∧ c ≠ '्') ∧
    split_into_syllables "ab" = ("ab" : String).data.map (fun c => String.mk [c]) :=
  ⟨by decide, split_plain_characters_singleton "ab" (by decide)⟩

/-- C3 (counterexample): the claim states that a consonant-initial
syllable takes its virama+consonant pairs first and then a following
dependent vowel sign, so the sign after a conjunct cluster joins that
syllable.  The code scans dependent signs before the virama loop and
never after it: on "क्का" (ka + virama + ka + aa-sign) it emits the
cluster "क्क" and then the bare sign "ा" as a separate syllable,
instead of the single claimed syllable "क्का". -/
theorem split_conjunct_vowel_detached :
    split_into_syllables "क्का" = ["क्क", "ा"] ∧
    split_into_syllables "क्का" ≠ ["क्का"] :=
  ⟨by decide, by decide⟩

/-- C3 (amended): a syllable is built from its first character (any
non-removed character), then the maximal run of dependent signs
(several vowel signs may be taken), then a virama section that contains
no dependent sign; scanning resumes exactly after that section, so a
dependent vowel sign following a conjunct cluster begins a new
syllable of its own. -/
theorem split_syllable_structure : ∀ (c : Char) (rest : List Char),
    ∃ vir remaining,
      splitLoopFuel (c :: rest).length (c :: rest) =
        (c :: (rest.takeWhile isDep ++ vir)) :: splitLoopFuel remaining.length remaining ∧
      vir ++ remaining = rest.dropWhile isDep ∧
      (∀ x ∈ vir, isDep x = false) := by
  intro c rest
  refine ⟨(viramaLoop (rest.dropWhile isDep)).1, (viramaLoop (rest.dropWhile isDep)).2, ?_,
    viramaLoop_append _, viramaLoop_fst_not_dep _⟩
  have hlen : (c :: rest).length = rest.length + 1 := rfl
  rw [hlen, splitLoopFuel_cons rest.length c rest]
  have hstep1 : (splitStep (c :: rest)).1 =
      c :: (rest.takeWhile isDep ++ (viramaLoop (rest.dropWhile isDep)).1) := rfl
  have hstep2 : (splitStep (c :: rest)).2 = (viramaLoop (rest.dropWhile isDep)).2 := rfl
  rw [hstep1, hstep2]
  congr 1
  apply splitLoopFuel_congr
  · have h1 := viramaLoop_snd_le (rest.dropWhile isDep)
    have h2 : (rest.dropWhile isDep).length ≤ rest.length := by
      have h := congrArg List.length (List.takeWhile_append_dropWhile isDep rest)
      rw [List.length_append] at h
      omega
    omega
  · exact le_rfl

/-- C4: the classifier applies exactly this precedence: Guru if the
unit is flagged as line end, else Guru if it contains any entry of the
long-vowel list (independent long vowels and their dependent signs),
else Guru if it contains a virama, else Guru if it contains anusvara or
visarga, and Laghu otherwise. -/
theorem classify_syllable_precedence : ∀ (syllable : String) (is_line_end : Bool),
    classify_syllable syllable is_line_end =
      if is_line_end then "G"
      else if ∃ v ∈ long_vowels, v ∈ syllable.data then "G"
      else if '्' ∈ syllable.data then "G"
      else if 'ं' ∈ syllable.data ∨ 'ः' ∈ syllable.data then "G"
      else "L" := by
  intro syl b
  unfold classify_syllable
  cases b <;> simp

/-- C5 (counterexample): the claim states that a fixed-pattern template
is accepted exactly when the quarter pattern repeated to the full verse
length equals the input pattern or one of those two strings is a
substring of the other.  On the 44-syllable verse
`quarter_then_laghu_text` the weight pattern is one Indravajra quarter
followed by 32 Laghu and a final Guru: it is not the repeated quarter
pattern and, both being 44 characters, neither is a substring of the
other, so the claim rejects Indravajra; yet the code accepts it with
confidence 0.95 because it tests the single unrepeated quarter for
substring containment in the input pattern. -/
theorem matcher_accepts_nonrepeated_quarter :
    (detect_chandas quarter_then_laghu_text).chandas_name = "Indravajra" ∧
    (detect_chandas quarter_then_laghu_text).confidence = 95/100 ∧
    (detect_chandas quarter_then_laghu_text).syllable_breakdown.length = 44 ∧
    (detect_chandas quarter_then_laghu_text).laghu_guru_pattern =
      "GGLGGLLGLLG" ++ String.mk (List.replicate 32 'L') ++ "G" ∧
    (detect_chandas quarter_then_laghu_text).laghu_guru_pattern ≠
      "GGLGGLLGLLGGGLGGLLGLLGGGLGGLLGLLGGGLGGLLGLLG" ∧
    isSubOf ("GGLGGLLGLLGGGLGGLLGLLGGGLGGLLGLLGGGLGGLLGLLG" : String).data
      (detect_chandas quarter_then_laghu_text).laghu_guru_pattern.data = false ∧
    isSubOf (detect_chandas quarter_then_laghu_text).laghu_guru_pattern.data
      ("GGLGGLLGLLGGGLGGLLGLLGGGLGGLLGLLGGGLGGLLGLLG" : String).data = false :=
  ⟨by decide, rfl, by decide, by decide, by decide, by decide, by decide⟩

/-- C5 (amended): the matcher scans the catalog in order and stops at
the first template it accepts; a flexible template with equal count is
accepted immediately (confidence 0.85), and a fixed-pattern template
with equal count is accepted exactly when the single quarter pattern is
a substring of the input weight pattern or the input weight pattern is
a substring of the quarter pattern (confidence 0.95); a count-equal
template whose pattern check fails is skipped and the scan continues.
The Indravajra exemplar holds: a 44-syllable verse whose weight pattern
is "GGLGGLLGLLG" repeated four times is classified "Indravajra" with
confidence 0.95. -/
theorem matcher_first_accepted_and_indravajra :
    (∀ (total : Nat) (pattern_str : String),
      matchLoop total pattern_str CHANDAS_PATTERNS =
        (CHANDAS_PATTERNS.find? (accepts_template total pattern_str)).map
          (fun t => (t.name, if t.pattern = none then (85/100 : ℚ) else 95/100))) ∧
    (detect_chandas indravajra_exemplar).chandas_name = "Indravajra" ∧
    (detect_chandas indravajra_exemplar).confidence = 95/100 ∧
    (detect_chandas indravajra_exemplar).laghu_guru_pattern =
      "GGLGGLLGLLGGGLGGLLGLLGGGLGGLLGLLGGGLGGLLGLLG" :=
  ⟨fun total pattern_str => matchLoop_eq_find total pattern_str CHANDAS_PATTERNS,
   by decide, rfl, by decide⟩

/-- C6: the claim describes the fallback ladder with a positivity
requirement on the multiple-of-8 branch ("a positive multiple of 8").
The code has no positivity check: at syllable count 0 (the empty verse,
divisible by 4 and not a positive multiple of 8, for which the claim
prescribes the 0.50 synthesized-name branch) the code takes the
`total % 8 == 0` branch and returns "Anushtup (0/4 quarters)" with
confidence 0.70.  At all positive counts the ladder behaves as claimed:
8 yields the single-quarter result at 0.75, 16 yields "Anushtup (2/4
quarters)" at 0.70, 12 yields the synthesized name at 0.50, and 7
yields "Unknown" at 0.30. -/
theorem fallback_ladder_eval :
    (fallback 8).1 = "Anushtup (single quarter detected)" ∧ (fallback 8).2.1 = 75/100 ∧
    (fallback 16).1 = "Anushtup (2/4 quarters)" ∧ (fallback 16).2.1 = 70/100 ∧
    (fallback 12).1 = "Unknown (3 syl/quarter)" ∧ (fallback 12).2.1 = 50/100 ∧
    (fallback 7).1 = "Unknown" ∧ (fallback 7).2.1 = 30/100 ∧
    0 % 4 = 0 ∧
    (fallback 0).1 = "Anushtup (0/4 quarters)" ∧ (fallback 0).2.1 = 70/100 ∧
    (fallback 0).2.1 ≠ 50/100 :=
  ⟨by decide, rfl, by decide, rfl, by decide, rfl, by decide, rfl, rfl, by decide, rfl, by
    have h : (fallback 0).2.1 = 70/100 := rfl
    rw [h]; norm_num⟩

/-- C7: for every input, the weight pattern string has exactly one
character per breakdown entry, and the position fields of the breakdown
are 1, 2, ..., n in emission order. -/
theorem detect_chandas_pattern_invariant : ∀ s : String,
    (detect_chandas s).laghu_guru_pattern.length =
      (detect_chandas s).syllable_breakdown.length ∧
    (detect_chandas s).syllable_breakdown.map (fun e => e.position) =
      List.range' 1 (detect_chandas s).syllable_breakdown.length := by
  intro s
  obtain ⟨h1, h2⟩ := detect_chandas_fields s
  obtain ⟨g1, g2⟩ := classifyFold_spec (split_into_syllables s) (split_into_syllables s).length 0
  have hlen2 : (classifyFold (split_into_syllables s).length 0 (split_into_syllables s)).2.length =
      (split_into_syllables s).length := by
    have h := congrArg List.length g2
    simpa using h
  constructor
  · rw [h1, h2, g1, hlen2]
  · rw [h2, hlen2, g2]

/-- C8: the explanation generator emits exactly five steps, numbered 1
through 5, in the fixed order preprocessing, segmentation,
classification, pattern matching, confidence; the fifth step's
qualitative reason is bucketed by the confidence value (at least 0.9
exact, at least 0.7 strong, at least 0.5 partial, otherwise low). -/
theorem identification_process_five_steps : ∀ (shloka : String) (result : DetectResult),
    (generate_identification_process shloka result).length = 5 ∧
    (generate_identification_process shloka result).map (fun st => st.step_number) =
      [1, 2, 3, 4, 5] ∧
    (generate_identification_process shloka result).map (fun st => st.step_name) =
      ["Text Preprocessing", "Syllable Segmentation (Akshara Vibhajana)",
       "Laghu-Guru Classification (Mātrā Analysis)", "Pattern Matching (Chandas Parichaya)",
       "Confidence Score Calculation"] ∧
    ((generate_identification_process shloka result).map (fun st => st.result)).getLast? =
      some ("Confidence: " ++ fmt2 result.confidence ++ "\nReason: " ++
        (if 9/10 ≤ result.confidence then
          "Exact match with standard pattern and syllable count"
         else if 7/10 ≤ result.confidence then
          "Strong match with minor variations acceptable in classical texts"
         else if 5/10 ≤ result.confidence then
          "Partial match - incomplete verse or variant form detected"
         else "Low confidence - unusual pattern or insufficient data")) := by
  intro shloka result
  exact ⟨rfl, rfl, rfl, rfl⟩

/-- C9: the segmenter is total and terminating because every iteration
of the scanning loop makes progress: on any nonempty remaining input
one step emits a nonempty syllable, consumes exactly the characters of
that syllable, and leaves a strictly shorter remainder (so the fuel
equal to the input length used by `split_into_syllables` always
suffices and the function is defined on every input). -/
theorem split_scan_progress : ∀ l : List Char, l ≠ [] →
    (splitStep l).1 ≠ [] ∧ (splitStep l).1 ++ (splitStep l).2 = l ∧
    (splitStep l).2.length < l.length :=
  fun l h => ⟨splitStep_fst_ne l h, splitStep_append l, splitStep_snd_lt l h⟩

/-- Witness for the C9 progress theorem at the concrete input a. -/
theorem split_scan_progress_witness :
    (['a'] : List Char) ≠ [] ∧
    ((splitStep ['a']).1 ≠ [] ∧ (splitStep ['a']).1 ++ (splitStep ['a']).2 = ['a'] ∧
      (splitStep ['a']).2.length < (['a'] : List Char).length) :=
  ⟨by decide, split_scan_progress ['a'] (by decide)⟩

/-- C10: the concatenation of the syllables emitted by the segmenter,
in order, is exactly the input with the characters of the normalization
class (danda marks, newlines, carriage returns, whitespace) removed: no
other character is dropped, duplicated or reordered. -/
theorem split_concat_normalized : ∀ s : String,
    String.join (split_into_syllables s) =
      String.mk (s.data.filter (fun c => !(isSpecialChar c))) := by
  intro s
  unfold split_into_syllables
  dsimp only
  rw [join_map_mk,
    splitLoopFuel_join (normalize_text s.data).length (normalize_text s.data) le_rfl]
  rfl
